import Mathlib

/-!
Shallow embedding of `packages/core/next/models/Field.ts` (the Field node of
the formily reactive form core), together with models of the external
collaborators the file uses (the Form value store, the Path model and the
validator description parser), which are specified in the natural-language
spec but whose sources are not part of this tree.

Conventions of the embedding:
* JavaScript values are modelled by the inductive `JSValue`; `undefined` is
  `JSValue.undef`.
* `mobx` (`makeObservable`, `action`, `runInAction`) only controls change
  notification batching and is a no-op on state, so it is not modelled.
* `form.notify(...)` is an event fan-out with no effect on the state carried
  here, so calls to it are dropped.
* `toJS` produces a structurally equal detached copy; values here are pure
  data, so it is the identity.
* Fallible JavaScript operations (a thrown `TypeError`) are modelled with
  `Option`, `none` standing for the exception.
* The unbounded `while` loop in the `parent` getter is modelled with explicit
  fuel: the outer `none` means the loop has not exited within that many
  iterations.
-/

namespace Formily

/-- A JavaScript value, as far as the Field core inspects one. -/
inductive JSValue where
  | undef
  | null
  | bool (b : Bool)
  | num (n : Int)
  | str (s : String)
  | arr (elems : List JSValue)
  | obj (entries : List (String × JSValue))

/-- Modelled from the spec: `isValid` from the shared package — a value is
valid when it is present and not undefined-equivalent (§3 Form invariant). -/
def isValid : JSValue → Bool
  | JSValue.undef => false
  | _ => true

/-- `FieldDisplayTypes` from the source. -/
inductive FieldDisplayTypes where
  | none
  | hidden
  | visibility
deriving DecidableEq

/-- `FieldPatternTypes` from the source. -/
inductive FieldPatternTypes where
  | editable
  | readOnly
  | disabled
  | readPretty
deriving DecidableEq

/-! ## Validator descriptions (claim C4)

The validator description language is external; the spec (§6) says
`parseDescriptions` turns a description into a sequence of rule-description
objects, each optionally carrying a `required` boolean, and `setRequired`
distinguishes object-shaped from array-shaped descriptions (`isObj`/`isArr`).
-/

/-- One rule-description object. `required = Option.none` models the absence
of the `required` key (the JS test `'required' in desc`); `some b` models the
key present with boolean value `b`. -/
structure RuleDesc where
  required : Option Bool
deriving DecidableEq

/-- A validator description, restricted to the two shapes `setRequired`
distinguishes: an object-shaped description or an array of descriptions. -/
inductive FieldValidator where
  | obj (d : RuleDesc)
  | arr (ds : List RuleDesc)
deriving DecidableEq

/-- Modelled from the spec: `parseDescriptions` of the validator package —
an object description yields a one-element sequence, an array description
yields its elements (§6). -/
def parseDescriptions : FieldValidator → List RuleDesc
  | FieldValidator.obj d => [d]
  | FieldValidator.arr ds => ds

/-- The `required` getter of `Field`: `parseDescriptions(validator).some(desc
=> desc.required)`. An absent key is falsy, hence `getD false`. -/
def requiredGetter (v : FieldValidator) : Bool :=
  (parseDescriptions v).any fun d => d.required.getD false

/-- `Field.setRequired`, acting on the validator description. -/
def setRequired (v : FieldValidator) (required : Bool) : FieldValidator :=
  let hasRequired := (parseDescriptions v).any fun d => d.required.isSome
  if hasRequired then
    match v with
    | FieldValidator.obj d => FieldValidator.obj { d with required := some required }
    | FieldValidator.arr ds =>
      FieldValidator.arr (ds.map fun d =>
        if d.required.isSome then { d with required := some required } else d)
  else
    match v with
    | FieldValidator.obj d => FieldValidator.obj { d with required := some required }
    | FieldValidator.arr ds => FieldValidator.arr (ds ++ [⟨some true⟩])

/-! ## The result partition of `validate` (claim C3) -/

/-- The type tag of one validation-engine result (§6: results are an ordered
sequence of records tagged error, warning or success). -/
inductive ValidateResultType where
  | error
  | warning
  | success
deriving DecidableEq

/-- One result produced by the external validation engine. -/
structure ValidateResult where
  type : ValidateResultType
  message : String

/-- The record returned by `Field.validate`. -/
structure ValidateReturns where
  errors : List String
  warnings : List String
  successes : List String

/-- The `results.forEach` partition inside `Field.validate` (source lines
444-451): errors collect `type === 'error'` messages; warnings collect both
`type === 'warning'` and `type === 'success'` messages; nothing is ever
pushed to `successes`. -/
def partitionResults : List ValidateResult → ValidateReturns
  | [] => ⟨[], [], []⟩
  | r :: rest =>
    let acc := partitionResults rest
    { errors := (if r.type = ValidateResultType.error then [r.message] else []) ++ acc.errors
      warnings :=
        (if r.type = ValidateResultType.warning then [r.message] else [])
          ++ (if r.type = ValidateResultType.success then [r.message] else [])
          ++ acc.warnings
      successes := acc.successes }

/-- A Feedback Store update request issued by `validate` (`feedback.update`). -/
structure FeedbackUpdate where
  type : String
  code : String
  messages : List String

/-- The Feedback Store updates fired by `Field.validate` after partitioning
(source lines 452-475): one update per non-empty bucket, tagged
ValidateError / ValidateWarning / ValidateSuccess. -/
def validateFeedbackUpdates (results : List ValidateResult) : List FeedbackUpdate :=
  let r := partitionResults results
  (if r.errors.length ≠ 0 then [⟨"error", "ValidateError", r.errors⟩] else [])
    ++ (if r.warnings.length ≠ 0 then [⟨"warning", "ValidateWarning", r.warnings⟩] else [])
    ++ (if r.successes.length ≠ 0 then [⟨"success", "ValidateSuccess", r.successes⟩] else [])

/-! ## Paths, the Form value store and the field registry

`FormPath` and `Form` are collaborators outside this tree; they are modelled
from the spec (§3, §6).
-/

/-- Modelled from the spec: the external Path Model (§6) — a hierarchical
address is its ordered list of segments; `toString` joins segments with a
dot; `parent()` drops the last segment (the parent of the root is the root,
so dropping the last segment of the empty list yields the empty list). -/
abbrev Path := List String

/-- `FormPath.toString`: segments joined with a dot; the root prints as the
empty identifier. -/
def pathToString (p : Path) : String := String.intercalate "." p

/-- Modelled from the spec: one of the Form's two parallel value trees (§3),
addressed by stringified Path; `none` means the address is absent from the
tree, `some JSValue.undef` means present but holding undefined. -/
def Store := String → Option JSValue

/-- Modelled from the spec: writing a Path of the value tree (the Form's
`setValuesIn`/`setInitialValuesIn` storage effect). -/
def Store.setIn (s : Store) (k : String) (v : JSValue) : Store :=
  fun q => if q = k then some v else s q

/-- Modelled from the spec: reading a Path of the value tree; an absent
address reads as undefined. -/
def Store.getIn (s : Store) (k : String) : JSValue := (s k).getD JSValue.undef

/-- Modelled from the spec: `FormPath.existIn(tree, path)` — whether the
address is present in the tree (§6). -/
def Store.existIn (s : Store) (k : String) : Bool := (s k).isSome

/-- The empty value tree. -/
def Store.empty : Store := fun _ => none

/-- A UI-binding slot (`FieldComponent`/`FieldDecorator` from the source): an
empty tuple `[]`, a one-element tuple `[C]`, or a pair `[C, props]`. The
handle is opaque to the core and modelled by a number. -/
inductive Slot where
  | empty
  | handleOnly (handle : Nat)
  | full (handle : Nat) (props : List (String × JSValue))

/-- A props object passed to `setComponentProps`/`setDecoratorProps`: an
ordered record of string keys. -/
abbrev PropsObj := List (String × JSValue)

/-- The mutable state of one `Field` instance (the stored attributes of the
class; the derived getters are separate functions below). -/
structure FieldState where
  void : Bool
  display : Option FieldDisplayTypes
  pattern : Option FieldPatternTypes
  loading : Bool
  validating : Bool
  modified : Bool
  active : Bool
  visited : Bool
  inputValue : JSValue
  inputValues : List JSValue
  recycledValue : JSValue
  initialized : Bool
  mounted : Bool
  unmounted : Bool
  validator : FieldValidator
  decorator : Slot
  component : Slot
  path : Path

/-- Modelled from the spec: the state the `Form` owns (§3) — the two value
trees, the registry mapping stringified Path to Field, and the form-level
`modified` flag. -/
structure Form where
  values : Store
  initialValues : Store
  fields : String → Option FieldState
  modified : Bool

/-- Modelled from the spec: `form.getValuesIn(path)` (§4.2). -/
def getValuesIn (form : Form) (p : Path) : JSValue :=
  Store.getIn form.values (pathToString p)

/-- Modelled from the spec: `form.getInitialValuesIn(path)` (§4.2). -/
def getInitialValuesIn (form : Form) (p : Path) : JSValue :=
  Store.getIn form.initialValues (pathToString p)

/-- Modelled from the spec: `form.setValuesIn(path, value)` (§4.2). -/
def setValuesIn (form : Form) (p : Path) (v : JSValue) : Form :=
  { form with values := Store.setIn form.values (pathToString p) v }

/-- Modelled from the spec: `form.setInitialValuesIn(path, value)` (§4.2). -/
def setInitialValuesIn (form : Form) (p : Path) (v : JSValue) : Form :=
  { form with initialValues := Store.setIn form.initialValues (pathToString p) v }

/-! ## Field getters -/

/-- The `value` getter of `Field` (source lines 155-161): the stored value
when the field is modified, otherwise the stored value if valid, otherwise
the initial value. -/
def fieldValue (form : Form) (f : FieldState) : JSValue :=
  let value := getValuesIn form f.path
  if f.modified then value
  else if isValid value then value else getInitialValuesIn form f.path

/-- The `initialValue` getter of `Field`. -/
def fieldInitialValue (form : Form) (f : FieldState) : JSValue :=
  getInitialValuesIn form f.path

/-- The `while` loop of the `parent` getter (source lines 111-119), with
explicit fuel. It starts from a segment list, looks its identifier up in the
registry, and on a miss retries on the parent segments; the loop in the
source has no root guard, so at the root it retries the root forever. The
outer `none` means the loop has not exited within `fuel` iterations. -/
def parentLoop (fields : String → Option FieldState) : Nat → Path → Option FieldState
  | 0, _ => none
  | fuel + 1, segs =>
    match fields (pathToString segs) with
    | some f => some f
    | none => parentLoop fields fuel segs.dropLast

/-- The `computedDisplay` getter (source lines 167-170): the field's own
display when set, otherwise the raw `display` attribute of the field the
`parent` getter resolves to. The outer `none` means the underlying `parent`
walk has not terminated within `fuel` iterations. -/
def computedDisplayF (fuel : Nat) (form : Form) (f : FieldState) :
    Option (Option FieldDisplayTypes) :=
  match f.display with
  | some d => some (some d)
  | none =>
    match parentLoop form.fields fuel f.path.dropLast with
    | some p => some p.display
    | none => none

/-- The `computedPattern` getter (source lines 172-175), mirror image of
`computedDisplayF`. -/
def computedPatternF (fuel : Nat) (form : Form) (f : FieldState) :
    Option (Option FieldPatternTypes) :=
  match f.pattern with
  | some d => some (some d)
  | none =>
    match parentLoop form.fields fuel f.path.dropLast with
    | some p => some p.pattern
    | none => none

/-! ## Field mutators and lifecycle -/

/-- `Field.setValue` (source lines 263-268): a silent no-op on a void field,
otherwise writes the value into the Form's values tree (the two `notify`
calls carry no state). -/
def setValue (form : Form) (f : FieldState) (v : JSValue) : Form :=
  if f.void then form else setValuesIn form f.path v

/-- `Field.setInitialValue` (source lines 270-275). -/
def setInitialValue (form : Form) (f : FieldState) (v : JSValue) : Form :=
  if f.void then form else setInitialValuesIn form f.path v

/-- `Field.setDisplay` (source lines 277-288): switching into `visibility`
from `none` restores `recycledValue` through `setValue` and nulls the stash;
switching into `none` stashes `toJS(this.value)` (a structural copy — the
identity on the pure values here) and clears the value; the `display`
attribute is updated last in every branch. -/
def setDisplay (form : Form) (f : FieldState) (t : FieldDisplayTypes) :
    Form × FieldState :=
  if t = FieldDisplayTypes.visibility then
    if f.display = some FieldDisplayTypes.none then
      (setValue form f f.recycledValue,
        { f with recycledValue := JSValue.null, display := some t })
    else (form, { f with display := some t })
  else if t = FieldDisplayTypes.none then
    let stashed := { f with recycledValue := fieldValue form f }
    (setValue form stashed JSValue.undef, { stashed with display := some t })
  else (form, { f with display := some t })

/-- `Field.onInput` (source lines 368-380): a no-op on a void field;
otherwise records the raw arguments, marks the field and the form modified,
and writes `this.value` — the getter, read after `modified` was set — back
into the values tree. The trailing `validate('onInput')` contributes its
synchronous prefix, `setValidating(true)`. -/
def onInput (form : Form) (f : FieldState) (args : List JSValue) :
    Form × FieldState :=
  if f.void then (form, f)
  else
    let f := { f with
      inputValue := args.headD JSValue.undef
      inputValues := args
      modified := true }
    let form := { form with modified := true }
    let form := setValuesIn form f.path (fieldValue form f)
    (form, { f with validating := true })

/-- `Field.onUnmount` (source lines 351-366): marks unmounted (the inner
`validate('onUnmount')` contributes `setValidating(true)`); then, when the
Path still exists in the values tree and the computed display is `none` or
`visibility`, clears the value through `setValue`; when the Path no longer
exists, deletes the registry entry. The outer `none` means the
`computedDisplay` evaluation (its `parent` walk) has not terminated within
`fuel` iterations. -/
def onUnmountF (fuel : Nat) (form : Form) (f : FieldState) :
    Option (Form × FieldState) :=
  let f := { f with mounted := false, unmounted := true, validating := true }
  if Store.existIn form.values (pathToString f.path) then
    match computedDisplayF fuel form f with
    | none => none
    | some d =>
      if d = some FieldDisplayTypes.none ∨ d = some FieldDisplayTypes.visibility then
        some (setValue form f JSValue.undef, f)
      else some (form, f)
  else
    some ({ form with
      fields := fun k => if k = pathToString f.path then none else form.fields k }, f)

/-! ## Construction -/

/-- The construction props (`IFieldProps` from the source). Absent optional
keys are `Option.none` / `JSValue.undef`, matching an absent JS property
before the spread-merge with `Field.defaultProps`. -/
structure IFieldProps where
  value : JSValue
  initialValue : JSValue
  void : Option Bool
  display : Option FieldDisplayTypes
  pattern : Option FieldPatternTypes
  validator : FieldValidator
  decorator : Option Slot
  component : Option Slot

/-- `Field.initialize` (source lines 92-109) after the spread-merge with
`Field.defaultProps = { void: false, decorator: [], component: [] }`: every
state flag starts false, `inputValues` starts empty, and `inputValue` /
`recycledValue` are the undefined of a fresh instance. -/
def initializeField (props : IFieldProps) (segs : Path) : FieldState :=
  { void := props.void.getD false
    display := props.display
    pattern := props.pattern
    loading := false
    validating := false
    modified := false
    active := false
    visited := false
    inputValue := JSValue.undef
    inputValues := []
    recycledValue := JSValue.undef
    initialized := false
    mounted := false
    unmounted := false
    validator := props.validator
    decorator := props.decorator.getD Slot.empty
    component := props.component.getD Slot.empty
    path := segs }

/-- The `Field` constructor (source lines 85-90): `initialize(props)`, the
no-op `makeObservable`, then `setValue(props.value)` and
`setInitialValue(props.initialValue)`. -/
def createField (form : Form) (segs : Path) (props : IFieldProps) :
    Form × FieldState :=
  let f := initializeField props segs
  let form := setValue form f props.value
  let form := setInitialValue form f props.initialValue
  (form, f)

/-! ## Binding slot props merge (claim C10) -/

/-- JavaScript `Object.assign` key write: overwrite an existing key in place,
otherwise append it. -/
def assignKey (acc : PropsObj) (kv : String × JSValue) : PropsObj :=
  if acc.any fun e => e.1 = kv.1 then
    acc.map fun e => if e.1 = kv.1 then (e.1, kv.2) else e
  else acc ++ [kv]

/-- JavaScript `Object.assign(target, source)` shallow merge on props
objects. -/
def objAssign (target source : PropsObj) : PropsObj :=
  source.foldl assignKey target

/-- `Object.assign(slot[1], props)` as performed by `setComponentProps` /
`setDecoratorProps` (source lines 314-318, 332-336): when the slot has no
element at position 1, `slot[1]` is undefined and `Object.assign` throws a
`TypeError` (modelled as `none`); otherwise the props object at position 1
is shallow-merged in place. -/
def assignSlotProps (slot : Slot) (props : PropsObj) : Option Slot :=
  match slot with
  | Slot.full h q => some (Slot.full h (objAssign q props))
  | _ => none

/-- `Field.setComponentProps` acting on the component slot. -/
def setComponentProps (slot : Slot) (props : PropsObj) : Option Slot :=
  assignSlotProps slot props

/-- `Field.setDecoratorProps` acting on the decorator slot. -/
def setDecoratorProps (slot : Slot) (props : PropsObj) : Option Slot :=
  assignSlotProps slot props

/-! ## Claim C3: the validate result partition -/

lemma partitionResults_successes (results : List ValidateResult) :
    (partitionResults results).successes = [] := by
  induction results with
  | nil => rfl
  | cons r rest ih => simp [partitionResults, ih]

/-- C3: for every result sequence of the validation engine, `validate`
returns errors = the messages of results typed error, warnings = the
messages (in sequence order) of results typed warning or success, successes
= always empty; hence the Feedback Store update tagged `ValidateSuccess`
never fires. The partition is a pure function of the result sequence, so the
returned lists are independent of what was stored. -/
theorem validate_partition_success_into_warnings (results : List ValidateResult) :
    (partitionResults results).errors
        = (results.filter fun r => r.type == ValidateResultType.error).map ValidateResult.message
  ∧ (partitionResults results).warnings
        = (results.filter fun r =>
            r.type == ValidateResultType.warning
              || r.type == ValidateResultType.success).map ValidateResult.message
  ∧ (partitionResults results).successes = []
  ∧ (validateFeedbackUpdates results).all (fun u => u.code != "ValidateSuccess") = true := by
  refine ⟨?_, ?_, partitionResults_successes results, ?_⟩
  · induction results with
    | nil => rfl
    | cons r rest ih =>
      rcases r with ⟨t, m⟩
      cases t <;> simp [partitionResults, ih]
  · induction results with
    | nil => rfl
    | cons r rest ih =>
      rcases r with ⟨t, m⟩
      cases t <;> simp [partitionResults, ih]
  · have hs := partitionResults_successes results
    simp only [validateFeedbackUpdates, hs]
    split <;> split <;> simp

/-! ## Claim C4: setRequired and the required getter -/

/-- C4 counterexample: on an array-shaped validator containing no rule with
a `required` key (here the empty array), `setRequired(false)` appends
`{required: true}`, so the `required` getter returns true — the claim
predicted false. -/
theorem setRequired_false_on_bare_array_yields_required :
    requiredGetter (setRequired (FieldValidator.arr []) false) = true := by rfl

/-- C4 (amended): `setRequired(true)` makes the `required` getter true for
both object-shaped and array-shaped validators; `setRequired(false)` makes
it false for an object-shaped validator and for an array-shaped validator
that already contains a rule with a `required` key, but on an array-shaped
validator with no such rule it appends `{required: true}` and the getter
returns true. -/
theorem setRequired_required_getter (d : RuleDesc) (ds : List RuleDesc) :
    requiredGetter (setRequired (FieldValidator.obj d) true) = true
  ∧ requiredGetter (setRequired (FieldValidator.arr ds) true) = true
  ∧ requiredGetter (setRequired (FieldValidator.obj d) false) = false
  ∧ requiredGetter (setRequired (FieldValidator.arr ds) false)
      = !(ds.any fun x => x.required.isSome) := by
  refine ⟨?_, ?_, ?_, ?_⟩
  · simp only [setRequired, parseDescriptions]
    split <;> rfl
  · simp only [setRequired, parseDescriptions]
    split
    · rename_i h
      simp only [requiredGetter, parseDescriptions, List.any_map]
      rw [List.any_eq_true] at h ⊢
      obtain ⟨x, hx, hsome⟩ := h
      exact ⟨x, hx, by simp [Function.comp, hsome]⟩
    · simp [requiredGetter, parseDescriptions, List.any_append]
  · simp only [setRequired, parseDescriptions]
    split <;> rfl
  · simp only [setRequired, parseDescriptions]
    split
    · rename_i h
      rw [h]
      simp only [requiredGetter, parseDescriptions, List.any_map, Bool.not_true]
      rw [List.any_eq_false]
      intro x _
      cases hxr : x.required <;> simp [Function.comp, hxr]
    · rename_i h
      rw [Bool.not_eq_true] at h
      rw [h]
      simp [requiredGetter, parseDescriptions, List.any_append]

/-! ## Fixtures shared by the concrete scenarios -/

/-- A Form with empty trees and an empty registry. -/
def emptyForm : Form :=
  { values := Store.empty
    initialValues := Store.empty
    fields := fun _ => none
    modified := false }

/-- Construction props with every optional key absent. -/
def bareProps : IFieldProps :=
  { value := JSValue.undef
    initialValue := JSValue.undef
    void := none
    display := none
    pattern := none
    validator := FieldValidator.arr []
    decorator := none
    component := none }

/-! ## Claim C2: setValue and the value getter -/

/-- C2 counterexample: an unmodified, non-void field at path `a` whose form
holds initial value `"Alice"` there; after `setValue(undefined)` the `value`
getter falls back to the initial value, so `f.value` is `"Alice"`, not the
`undefined` that was set. -/
theorem setValue_undef_falls_back_to_initialValue :
    fieldValue
        (setValue
          { values := Store.empty
            initialValues := Store.setIn Store.empty "a" (JSValue.str "Alice")
            fields := fun _ => none
            modified := false }
          (initializeField bareProps ["a"]) JSValue.undef)
        (initializeField bareProps ["a"]) = JSValue.str "Alice"
  ∧ JSValue.str "Alice" ≠ JSValue.undef := by
  refine ⟨rfl, fun h => JSValue.noConfusion h⟩

/-- C2 (amended): after `setValue(v)` on a non-void field, the `value`
getter returns `v` when the field is modified or `v` is valid, and falls
back to the field's initial value when the field is unmodified and `v` is
invalid (undefined); on a void field the call leaves the Form unchanged. -/
theorem setValue_then_value (form : Form) (f : FieldState) (v : JSValue) :
    if f.void = true then setValue form f v = form
    else fieldValue (setValue form f v) f
        = (if (f.modified || isValid v) = true then v else fieldInitialValue form f) := by
  cases hv : f.void with
  | true => simp [setValue, hv]
  | false =>
    simp only [Bool.false_eq_true, if_false]
    simp only [setValue, hv, Bool.false_eq_true, if_false]
    simp only [fieldValue, fieldInitialValue, getValuesIn, getInitialValuesIn,
      setValuesIn, Store.getIn, Store.setIn, if_pos rfl, Option.getD_some]
    cases hm : f.modified <;> cases hiv : isValid v <;> simp [hiv]

/-! ## Claim C5: construction -/

/-- Construction props carrying `void: true` together with a value and an
initial value. -/
def voidProps : IFieldProps :=
  { bareProps with
    value := JSValue.str "x"
    initialValue := JSValue.str "y"
    void := some true }

/-- C5 counterexample: constructing a Field from props with `void: true`,
`value: "x"`, `initialValue: "y"` writes nothing into either tree — both
trees are still empty at the Field's path, because `setValue` and
`setInitialValue` are silent no-ops on a void field. -/
theorem construct_void_field_skips_tree_writes :
    (createField emptyForm ["a"] voidProps).1.values "a" = none
  ∧ (createField emptyForm ["a"] voidProps).1.initialValues "a" = none
  ∧ (createField emptyForm ["a"] voidProps).2.void = true :=
  ⟨rfl, rfl, rfl⟩

/-- C5 (amended): construction initializes every state flag to false and the
input buffers to empty; for a non-void field it writes `props.value` and
`props.initialValue` into the Form's two trees at the Field's path, while
for a void field it leaves the Form untouched. -/
theorem construct_initializes_flags_and_trees (form : Form) (segs : Path)
    (props : IFieldProps) :
    (createField form segs props).2.initialized = false
  ∧ (createField form segs props).2.loading = false
  ∧ (createField form segs props).2.validating = false
  ∧ (createField form segs props).2.modified = false
  ∧ (createField form segs props).2.active = false
  ∧ (createField form segs props).2.visited = false
  ∧ (createField form segs props).2.mounted = false
  ∧ (createField form segs props).2.unmounted = false
  ∧ (createField form segs props).2.inputValue = JSValue.undef
  ∧ (createField form segs props).2.inputValues = []
  ∧ (if props.void.getD false = true then (createField form segs props).1 = form
     else (createField form segs props).1.values (pathToString segs) = some props.value
        ∧ (createField form segs props).1.initialValues (pathToString segs)
            = some props.initialValue) := by
  refine ⟨rfl, rfl, rfl, rfl, rfl, rfl, rfl, rfl, rfl, rfl, ?_⟩
  by_cases h : props.void.getD false = true
  · simp [createField, setValue, setInitialValue, initializeField, h]
  · simp [createField, setValue, setInitialValue, initializeField, h,
      setValuesIn, setInitialValuesIn, Store.setIn]

/-! ## Claim C1: onInput -/

/-- The props of the C1 scenario: `value: "Al"`, `initialValue: "Alice"`. -/
def c1Props : IFieldProps :=
  { bareProps with
    value := JSValue.str "Al"
    initialValue := JSValue.str "Alice" }

/-- The C1 field at path `user.name`, freshly constructed on an empty form. -/
def c1Start : Form × FieldState := createField emptyForm ["user", "name"] c1Props

/-- The C1 state after `onInput("Bob")`. -/
def c1After : Form × FieldState := onInput c1Start.1 c1Start.2 [JSValue.str "Bob"]

/-- C1 (code bug): on the spec's own scenario — field at `user.name` created
with value `"Al"` and initial value `"Alice"`, then `onInput("Bob")` — the
input is recorded (`inputValue = "Bob"`, field and form `modified`), but
`onInput` writes `this.value` (the getter, which after `modified` was set is
just the previously stored value) back into the tree, so `f.value` stays
`"Al"` instead of becoming `"Bob"`. -/
theorem onInput_records_but_does_not_store_input :
    c1After.2.inputValue = JSValue.str "Bob"
  ∧ c1After.2.inputValues = [JSValue.str "Bob"]
  ∧ c1After.2.modified = true
  ∧ c1After.1.modified = true
  ∧ fieldValue c1After.1 c1After.2 = JSValue.str "Al"
  ∧ JSValue.str "Al" ≠ JSValue.str "Bob" := by
  refine ⟨rfl, rfl, rfl, rfl, rfl, ?_⟩
  intro h
  injection h with h2
  exact absurd h2 (by decide)

/-! ## Claim C6: the parent getter's while loop -/

/-- A root-level field at path `user.name`, its form's registry holding only
that field: no ancestor identifier (not even the empty root identifier) is
registered. -/
def c6Field : FieldState := initializeField bareProps ["user", "name"]

/-- The registry of the C6 scenario. -/
def c6Fields : String → Option FieldState :=
  fun k => if k = "user.name" then some c6Field else none

lemma parentLoop_c6_root (n : Nat) : parentLoop c6Fields n [] = none := by
  induction n with
  | zero => rfl
  | succ n ih => exact (rfl : parentLoop c6Fields (n + 1) [] = parentLoop c6Fields n []).trans ih

/-- C6 (code bug): with only `user.name` itself registered, the `parent`
getter's while loop never exits, whatever the iteration budget: at the root
the Path's parent is the root again and the registry misses forever — the
loop has no root guard (unlike the `array` getter's), so the getter cannot
return undefined; it simply does not terminate. -/
theorem parent_walk_diverges_without_registered_ancestor :
    c6Fields "user.name" = some c6Field
  ∧ ∀ fuel : Nat, parentLoop c6Fields fuel ["user"] = none := by
  refine ⟨rfl, ?_⟩
  intro fuel
  cases fuel with
  | zero => rfl
  | succ n =>
    exact (rfl : parentLoop c6Fields (n + 1) ["user"] = parentLoop c6Fields n []).trans
      (parentLoop_c6_root n)

/-! ## Claim C7: computedDisplay / computedPattern inheritance -/

/-- Props whose own display is `none` (the hide-with-value-clearing mode). -/
def c7GrandProps : IFieldProps :=
  { bareProps with display := some FieldDisplayTypes.none }

/-- The C7 grandparent at path `a`, with its own display set. -/
def c7FieldA : FieldState := initializeField c7GrandProps ["a"]

/-- The C7 parent at path `a.b`, registered but with no own display. -/
def c7FieldB : FieldState := initializeField bareProps ["a", "b"]

/-- The C7 field at path `a.b.c`, with no own display. -/
def c7Field : FieldState := initializeField bareProps ["a", "b", "c"]

/-- The C7 form: registry holding `a` (display set) and `a.b` (display
unset). -/
def c7Form : Form :=
  { values := Store.empty
    initialValues := Store.empty
    fields := fun k =>
      if k = "a" then some c7FieldA else if k = "a.b" then some c7FieldB else none
    modified := false }

/-- C7 counterexample: the field at `a.b.c` has no own display, its nearest
registered ancestor `a.b` has none either, and the further ancestor `a` has
display `none` set — yet `computedDisplay` evaluates to undefined (the
getter reads the nearest registered ancestor's raw `display`, not that
ancestor's computed value, so nothing is inherited from `a`). -/
theorem computedDisplay_does_not_chain :
    c7Form.fields "a" = some c7FieldA
  ∧ c7FieldA.display = some FieldDisplayTypes.none
  ∧ c7Form.fields "a.b" = some c7FieldB
  ∧ c7FieldB.display = none
  ∧ c7Field.display = none
  ∧ parentLoop c7Form.fields 9 (["a", "b", "c"].dropLast) = some c7FieldB
  ∧ computedDisplayF 9 c7Form c7Field = some none
  ∧ some (Option.none : Option FieldDisplayTypes) ≠ some (some FieldDisplayTypes.none) := by
  refine ⟨rfl, rfl, rfl, rfl, rfl, rfl, rfl, ?_⟩
  intro h
  injection h with h2
  exact Option.noConfusion h2

/-- C7 (amended): for a field with no own display (resp. pattern), when the
`parent` walk resolves to a registered field `p`, `computedDisplay` (resp.
`computedPattern`) is exactly `p`'s raw `display` (resp. `pattern`)
attribute — one inheritance step, with no further chain walk. -/
theorem computedDisplay_uses_nearest_ancestor_raw (fuel : Nat) (form : Form)
    (f p : FieldState) (hd : f.display = none) (hp : f.pattern = none)
    (hw : parentLoop form.fields fuel f.path.dropLast = some p) :
    computedDisplayF fuel form f = some p.display
  ∧ computedPatternF fuel form f = some p.pattern := by
  constructor
  · simp only [computedDisplayF, hd, hw]
  · simp only [computedPatternF, hp, hw]

/-- Witness for the amended C7 theorem at the concrete three-level
registry. -/
theorem computedDisplay_uses_nearest_ancestor_raw_witness :
    (c7Field.display = none ∧ c7Field.pattern = none
      ∧ parentLoop c7Form.fields 9 c7Field.path.dropLast = some c7FieldB)
  ∧ (computedDisplayF 9 c7Form c7Field = some c7FieldB.display
      ∧ computedPatternF 9 c7Form c7Field = some c7FieldB.pattern) :=
  ⟨⟨rfl, rfl, rfl⟩,
    computedDisplay_uses_nearest_ancestor_raw 9 c7Form c7Field c7FieldB rfl rfl rfl⟩

/-! ## Claim C8: the display none/visibility round trip -/

lemma Store.setIn_self (s : Store) (k : String) (v : JSValue) :
    Store.setIn s k v k = some v := by
  simp [Store.setIn]

/-- C8: for any field in any form, toggling display into `none` and then
back into `visibility` (with no other mutation in between) restores the
value the field had at the moment `none` was set — the stash is taken by
`toJS` (a detached structural copy, the identity on these pure values) and
written back by `setValue` — and the `recycledValue` stash is nulled after
the restore. -/
theorem display_none_visibility_roundtrip (form : Form) (f : FieldState) :
    fieldValue
        (setDisplay (setDisplay form f FieldDisplayTypes.none).1
          (setDisplay form f FieldDisplayTypes.none).2 FieldDisplayTypes.visibility).1
        (setDisplay (setDisplay form f FieldDisplayTypes.none).1
          (setDisplay form f FieldDisplayTypes.none).2 FieldDisplayTypes.visibility).2
      = fieldValue form f
  ∧ (setDisplay (setDisplay form f FieldDisplayTypes.none).1
      (setDisplay form f FieldDisplayTypes.none).2
      FieldDisplayTypes.visibility).2.recycledValue = JSValue.null := by
  refine ⟨?_, ?_⟩
  · by_cases hv : f.void = true
    · simp [setDisplay, setValue, hv, fieldValue, getValuesIn, getInitialValuesIn]
    · simp only [Bool.not_eq_true] at hv
      simp only [setDisplay, setValue, hv, Bool.false_eq_true, if_false, reduceIte,
        setValuesIn, fieldValue, getValuesIn, getInitialValuesIn, Store.getIn,
        Store.setIn_self, Option.getD_some]
      by_cases hm : f.modified = true
      · simp [hm, Store.setIn_self]
      · simp only [Bool.not_eq_true] at hm
        simp only [hm, Bool.false_eq_true, if_false]
        by_cases hr : isValid ((form.values (pathToString f.path)).getD JSValue.undef) = true
        · simp [hr, Store.setIn_self]
        · simp only [Bool.not_eq_true] at hr
          simp [hr, Store.setIn_self, ite_self]
  · by_cases hv : f.void = true <;> simp [setDisplay, setValue, hv]

/-! ## Claim C9: onUnmount -/

/-- C9 (amended): whenever `onUnmount` terminates (its `computedDisplay`
evaluation can diverge through the `parent` walk), the field is marked
unmounted; when its Path no longer exists in the values tree, the registry
entry at the field's path string is deleted; when the Path still exists, the
registry is untouched and the stored value is cleared to undefined iff the
field is non-void and its computed display is `none` or `visibility` — a
void field's value is left as it was, because the clearing goes through the
void-silent `setValue`. -/
theorem onUnmount_registry_and_value (fuel : Nat) (form : Form) (f : FieldState) :
    match onUnmountF fuel form f with
    | none => True
    | some r =>
        r.2.mounted = false ∧ r.2.unmounted = true
      ∧ (if Store.existIn form.values (pathToString f.path) = true then
            r.1.fields = form.fields
          ∧ (if f.void = false
                ∧ (computedDisplayF fuel form f = some (some FieldDisplayTypes.none)
                    ∨ computedDisplayF fuel form f = some (some FieldDisplayTypes.visibility))
              then r.1.values (pathToString f.path) = some JSValue.undef
              else r.1.values = form.values)
          else r.1.fields (pathToString f.path) = none ∧ r.1.values = form.values) := by
  have hcd : computedDisplayF fuel form
      { f with mounted := false, unmounted := true, validating := true }
      = computedDisplayF fuel form f := rfl
  unfold onUnmountF
  by_cases he : Store.existIn form.values (pathToString f.path) = true
  · simp only [he, if_true, hcd]
    cases hc : computedDisplayF fuel form f with
    | none => trivial
    | some d =>
      by_cases hd : d = some FieldDisplayTypes.none ∨ d = some FieldDisplayTypes.visibility
      · simp only [hd, if_true]
        by_cases hv : f.void = false
        · simp [setValue, setValuesIn, hv, Store.setIn, he, hc, hd]
        · simp only [Bool.not_eq_false] at hv
          simp [setValue, hv, he, hc, hd]
      · simp only [hd, if_false]
        simp [he, hc, hd]
  · simp only [he, if_false]
    simp [he]

/-- Props for a void field whose own display is `none`. -/
def c9VoidProps : IFieldProps :=
  { bareProps with
    void := some true
    display := some FieldDisplayTypes.none }

/-- The C9 void field at path `a`, mounted. -/
def c9Field : FieldState :=
  { initializeField c9VoidProps ["a"] with mounted := true }

/-- The C9 form: some other actor has stored `"x"` at path `a`, and the
field is registered there. -/
def c9Form : Form :=
  { values := Store.setIn Store.empty "a" (JSValue.str "x")
    initialValues := Store.empty
    fields := fun k => if k = "a" then some c9Field else none
    modified := false }

/-- C9 counterexample: a void field at `a` with computed display `none`,
whose Path still exists in the values tree holding `"x"`; after `onUnmount`
the claim requires the stored value to be cleared to the invalid marker, but
the clearing runs through `setValue`, which is a no-op on a void field, so
the stored value is still `"x"`. -/
theorem onUnmount_void_field_value_not_cleared :
    Store.existIn c9Form.values "a" = true
  ∧ c9Field.void = true
  ∧ computedDisplayF 3 c9Form c9Field = some (some FieldDisplayTypes.none)
  ∧ (onUnmountF 3 c9Form c9Field).map (fun r => r.1.values "a")
      = some (some (JSValue.str "x"))
  ∧ (onUnmountF 3 c9Form c9Field).map (fun r => r.2.unmounted) = some true
  ∧ some (some (JSValue.str "x")) ≠ some (some JSValue.undef) := by
  refine ⟨rfl, rfl, rfl, rfl, rfl, ?_⟩
  intro h
  injection h with h2
  injection h2 with h3
  exact JSValue.noConfusion h3

/-! ## Claim C10: setComponentProps / setDecoratorProps on default slots -/

/-- C10: a field constructed with the default (empty) component and
decorator slots has no element at slot position 1, so
`setComponentProps`/`setDecoratorProps` — `Object.assign(slot[1], props)` —
fault with a TypeError (modelled `none`) instead of storing the props; the
same holds for a one-element slot; the shallow merge succeeds exactly when
position 1 already holds an object. -/
theorem setProps_faults_without_props_slot (segs : Path) (p q : PropsObj) (h : Nat) :
    (initializeField bareProps segs).component = Slot.empty
  ∧ (initializeField bareProps segs).decorator = Slot.empty
  ∧ setComponentProps Slot.empty p = none
  ∧ setDecoratorProps Slot.empty p = none
  ∧ setComponentProps (Slot.handleOnly h) p = none
  ∧ setDecoratorProps (Slot.handleOnly h) p = none
  ∧ setComponentProps (Slot.full h q) p = some (Slot.full h (objAssign q p))
  ∧ setDecoratorProps (Slot.full h q) p = some (Slot.full h (objAssign q p)) :=
  ⟨rfl, rfl, rfl, rfl, rfl, rfl, rfl, rfl⟩

end Formily
